import Mathlib

/-!
Verification of the leveraged-trading-calculator core against its
natural-language specification.

The definitions below are a shallow embedding of the Python sources
`unified_trading_app/core/calculator.py`, `core/trade_manager.py`,
`core/partial_sales.py` and `utils/export.py`.  Python floats are
embedded as rationals, Python `int(x)` truncation as `pytrunc`,
raised exceptions as `Except`/`PyOutcome` values, and the in-place
mutation of `Trade` objects held in the manager's dict as explicit
replacement in an association list.  Wall-clock timestamps and UUIDs
are modelled as explicit string arguments.
-/

/-- Python `int(x)` on a float: truncation toward zero. -/
def pytrunc (q : ℚ) : ℤ := if 0 ≤ q then ⌊q⌋ else ⌈q⌉

/-- The five product-type tags of `calculator.py` (`ProductType` Literal). -/
inductive ProductType
  | spot
  | cfd_long
  | cfd_short
  | knockout_long
  | knockout_short
  deriving DecidableEq, Repr

/-- `product_type in ["cfd_short", "knockout_short"]` (calculator.py line 112,
partial_sales.py line 52). -/
def ProductType.isShortType : ProductType → Bool
  | .cfd_short => true
  | .knockout_short => true
  | _ => false

/-- `product_type.startswith("cfd")` (calculator.py line 138). -/
def ProductType.isCfd : ProductType → Bool
  | .cfd_long => true
  | .cfd_short => true
  | _ => false

/-- Python exceptions raised (or potentially raised) by the embedded code. -/
inductive PyErr
  | valueError (msg : String)
  | zeroDivisionError
  | typeError (msg : String)
  | attributeError (msg : String)
  deriving DecidableEq, Repr

/-- `CalculationResult` dataclass of calculator.py. -/
structure CalculationResult where
  portfolio_value : ℚ
  max_risk : ℚ
  risk_percent : ℚ
  product_type : ProductType
  leverage : ℚ
  is_short : Bool
  entry_price : ℚ
  stop_loss : ℚ
  basis_risk_per_unit : ℚ
  total_risk_per_unit : ℚ
  units : ℤ
  actual_investment : ℚ
  notional_value : ℚ
  portfolio_percentage : ℚ
  target_1r : ℚ
  target_2r : ℚ
  target_5r : ℚ
  basis_risk_total : ℚ
  spread_cost_total : ℚ
  overnight_cost_total : ℚ
  total_cost : ℚ
  deriving DecidableEq, Repr

/-- `basis_risk` of calculator.py lines 115-122 (after the direction check). -/
def basis_risk_of (product_type : ProductType) (entry_price stop_loss : ℚ) : ℚ :=
  if product_type.isShortType then stop_loss - entry_price else entry_price - stop_loss

/-- `leverage_used` of calculator.py lines 125-133. -/
def leverage_used_of (product_type : ProductType) (leverage : ℚ) : ℚ :=
  if product_type = .spot then 1 else leverage

/-- `effective_risk` of calculator.py lines 125-134. -/
def effective_risk_of (product_type : ProductType) (entry_price stop_loss leverage : ℚ) : ℚ :=
  if product_type = .spot then basis_risk_of product_type entry_price stop_loss
  else basis_risk_of product_type entry_price stop_loss * leverage

/-- `spread_cost_per_unit` of calculator.py lines 125-135. -/
def spread_cost_per_unit_of (product_type : ProductType) (entry_price spread_percent : ℚ) : ℚ :=
  if product_type = .spot then 0 else entry_price * (spread_percent / 100)

/-- `overnight_cost_per_unit` of calculator.py lines 125-141: only CFDs pay
overnight financing. -/
def overnight_cost_per_unit_of (product_type : ProductType)
    (entry_price overnight_percent : ℚ) (holding_days : ℤ) : ℚ :=
  if product_type = .spot then 0
  else if product_type.isCfd then entry_price * (overnight_percent / 100) * (holding_days : ℚ)
  else 0

/-- `total_risk_per_unit` of calculator.py line 144. -/
def total_risk_per_unit_of (product_type : ProductType)
    (entry_price stop_loss leverage spread_percent overnight_percent : ℚ)
    (holding_days : ℤ) : ℚ :=
  effective_risk_of product_type entry_price stop_loss leverage
    + spread_cost_per_unit_of product_type entry_price spread_percent
    + overnight_cost_per_unit_of product_type entry_price overnight_percent holding_days

/-- The success-path computation of `calculate_position` (calculator.py
lines 111-211), run after all validation has passed and the divisor is
known to be nonzero. -/
def calcResult (portfolio_value risk_percentage entry_price stop_loss : ℚ)
    (product_type : ProductType) (leverage spread_percent overnight_percent : ℚ)
    (holding_days : ℤ) : CalculationResult :=
  let max_risk := portfolio_value * (risk_percentage / 100)
  let is_short := product_type.isShortType
  let basis_risk := basis_risk_of product_type entry_price stop_loss
  let leverage_used := leverage_used_of product_type leverage
  let spread_cost_per_unit := spread_cost_per_unit_of product_type entry_price spread_percent
  let overnight_cost_per_unit :=
    overnight_cost_per_unit_of product_type entry_price overnight_percent holding_days
  let total_risk_per_unit :=
    total_risk_per_unit_of product_type entry_price stop_loss leverage
      spread_percent overnight_percent holding_days
  let units : ℤ := pytrunc (max_risk / total_risk_per_unit)
  let actual_investment := (units : ℚ) * entry_price
  let notional_value :=
    if product_type = .spot then actual_investment
    else (units : ℚ) * entry_price * leverage_used
  { portfolio_value := portfolio_value
    max_risk := max_risk
    risk_percent := (risk_percentage / 100) * 100
    product_type := product_type
    leverage := leverage_used
    is_short := is_short
    entry_price := entry_price
    stop_loss := stop_loss
    basis_risk_per_unit := basis_risk
    total_risk_per_unit := total_risk_per_unit
    units := units
    actual_investment := actual_investment
    notional_value := notional_value
    portfolio_percentage := (actual_investment / portfolio_value) * 100
    target_1r := if is_short then entry_price - basis_risk else entry_price + basis_risk
    target_2r := if is_short then entry_price - 2 * basis_risk else entry_price + 2 * basis_risk
    target_5r := if is_short then entry_price - 5 * basis_risk else entry_price + 5 * basis_risk
    basis_risk_total := (units : ℚ) * basis_risk
    spread_cost_total := (units : ℚ) * spread_cost_per_unit
    overnight_cost_total := (units : ℚ) * overnight_cost_per_unit
    total_cost := (units : ℚ) * basis_risk + (units : ℚ) * spread_cost_per_unit
      + (units : ℚ) * overnight_cost_per_unit }

/-- `UnifiedPositionCalculator(portfolio_value, risk_percentage)` followed by
`calculate_position(entry_price, stop_loss, product_type, leverage,
spread_percent, overnight_percent, holding_days)`: the constructor checks of
calculator.py lines 71-74 run first, then `_validate_inputs` (lines 226-244),
then the direction checks (lines 115-122).  There is no guard on
`total_risk_per_unit`: the source divides by it directly at line 147, which in
Python raises an (uncaught) `ZeroDivisionError` when it is exactly zero. -/
def calculate_position (portfolio_value risk_percentage entry_price stop_loss : ℚ)
    (product_type : ProductType) (leverage spread_percent overnight_percent : ℚ)
    (holding_days : ℤ) : Except PyErr CalculationResult :=
  if portfolio_value ≤ 0 then .error (.valueError "Portfolio value muss positiv sein")
  else if risk_percentage ≤ 0 ∨ 100 < risk_percentage then
    .error (.valueError "Risk percentage muss zwischen 0 und 100 liegen")
  else if entry_price ≤ 0 then .error (.valueError "Entry price muss positiv sein")
  else if stop_loss ≤ 0 then .error (.valueError "Stop loss muss positiv sein")
  else if leverage < 1 then .error (.valueError "Leverage muss >= 1 sein")
  else if product_type.isShortType = true ∧ stop_loss ≤ entry_price then
    .error (.valueError "Bei Short-Positionen muss Entry < Stop-Loss sein!")
  else if product_type.isShortType = false ∧ entry_price ≤ stop_loss then
    .error (.valueError "Bei Long-Positionen muss Entry > Stop-Loss sein!")
  else if total_risk_per_unit_of product_type entry_price stop_loss leverage
      spread_percent overnight_percent holding_days = 0 then
    .error .zeroDivisionError
  else .ok (calcResult portfolio_value risk_percentage entry_price stop_loss
    product_type leverage spread_percent overnight_percent holding_days)

/-- `TradeStatus` Literal of trade_manager.py (`"planned" | "open" | "closed"`);
`open` is a Lean keyword, so the middle tag carries a trailing underscore. -/
inductive TradeStatus
  | planned
  | open_
  | closed
  deriving DecidableEq, Repr

/-- A partial-sale history entry as appended by
`PartialSaleManager.execute_partial_sale` (partial_sales.py lines 136-144). -/
structure PartialSaleRecord where
  date : String
  units_sold : ℤ
  price : ℚ
  proceeds : ℚ
  pnl : ℚ
  r_multiple : ℚ
  percentage : ℚ
  deriving DecidableEq, Repr

/-- The `Trade` dataclass of trade_manager.py. -/
structure Trade where
  id : String
  symbol : String
  created_at : String
  status : TradeStatus
  product_type : ProductType
  entry_price : ℚ
  stop_loss : ℚ
  current_stop : ℚ
  leverage : ℚ
  spread_percent : ℚ
  overnight_percent : ℚ
  holding_days : ℤ
  units : ℤ
  original_units : ℤ
  investment : ℚ
  exposure : ℚ
  risk_amount : ℚ
  target_1r : ℚ
  target_2r : ℚ
  target_5r : ℚ
  partial_sales : List PartialSaleRecord
  total_realized_pnl : ℚ
  close_price : Option ℚ
  close_date : Option String
  final_pnl : Option ℚ
  final_r_multiple : Option ℚ
  deriving DecidableEq, Repr

/-- The `TradeManager`: its `trades` dict, embedded as an insertion-ordered
association list with unique keys. -/
structure TradeManager where
  trades : List (String × Trade)
  deriving DecidableEq, Repr

/-- `self.trades[trade_id] = trade` on a Python dict: replace in place when the
key exists, append otherwise. -/
def setKey : List (String × Trade) → String → Trade → List (String × Trade)
  | [], k, v => [(k, v)]
  | p :: rest, k, v => if p.1 = k then (k, v) :: rest else p :: setKey rest k v

/-- `TradeManager.get_trade`: `self.trades.get(trade_id)`. -/
def TradeManager.get_trade (m : TradeManager) (trade_id : String) : Option Trade :=
  (m.trades.find? (fun p => p.1 = trade_id)).map (fun p => p.2)

/-- `TradeManager.create_trade` (trade_manager.py lines 84-154).  The UUID and
the creation timestamp are supplied by the caller. -/
def TradeManager.create_trade (m : TradeManager) (trade_id : String) (now : String)
    (symbol : String) (product_type : ProductType) (entry_price stop_loss : ℚ)
    (units : ℤ) (investment exposure risk_amount target_1r target_2r target_5r : ℚ)
    (leverage spread_percent overnight_percent : ℚ) (holding_days : ℤ)
    (status : TradeStatus) : TradeManager :=
  let trade : Trade :=
    { id := trade_id
      symbol := symbol
      created_at := now
      status := status
      product_type := product_type
      entry_price := entry_price
      stop_loss := stop_loss
      current_stop := stop_loss
      leverage := leverage
      spread_percent := spread_percent
      overnight_percent := overnight_percent
      holding_days := holding_days
      units := units
      original_units := units
      investment := investment
      exposure := exposure
      risk_amount := risk_amount
      target_1r := target_1r
      target_2r := target_2r
      target_5r := target_5r
      partial_sales := []
      total_realized_pnl := 0
      close_price := none
      close_date := none
      final_pnl := none
      final_r_multiple := none }
  { trades := setKey m.trades trade_id trade }

/-- The `updates` dict accepted by `TradeManager.update_trade`, restricted to
the `allowed_fields` of trade_manager.py lines 184-187 (keys outside that list
are silently ignored by the source, so they carry no information and are not
represented).  A `some` entry means the key is present in the dict. -/
structure TradeUpdates where
  current_stop : Option ℚ := none
  units : Option ℤ := none
  status : Option TradeStatus := none
  close_price : Option ℚ := none
  close_date : Option String := none
  final_pnl : Option ℚ := none
  final_r_multiple : Option ℚ := none
  deriving DecidableEq, Repr

/-- The `setattr` loop of `update_trade` (trade_manager.py lines 189-191). -/
def applyUpdates (t : Trade) (u : TradeUpdates) : Trade :=
  { t with
    current_stop := u.current_stop.getD t.current_stop
    units := u.units.getD t.units
    status := u.status.getD t.status
    close_price := (u.close_price.map some).getD t.close_price
    close_date := (u.close_date.map some).getD t.close_date
    final_pnl := (u.final_pnl.map some).getD t.final_pnl
    final_r_multiple := (u.final_r_multiple.map some).getD t.final_r_multiple }

/-- `TradeManager.update_trade` (trade_manager.py lines 168-193): `False` and
no mutation when the id is unknown, otherwise the allowed fields are written. -/
def TradeManager.update_trade (m : TradeManager) (trade_id : String)
    (u : TradeUpdates) : Bool × TradeManager :=
  match m.get_trade trade_id with
  | none => (false, m)
  | some trade => (true, { trades := setKey m.trades trade_id (applyUpdates trade u) })

/-- `TradeManager.close_trade` (trade_manager.py lines 195-244).  Note that the
remaining-unit P&L at line 222 is `remaining_units * (close_price - entry_price)`
for every product type: the direction of short trades is not consulted. -/
def TradeManager.close_trade (m : TradeManager) (trade_id : String)
    (close_price : ℚ) (calculate_pnl : Bool) (now : String) : Bool × TradeManager :=
  match m.get_trade trade_id with
  | none => (false, m)
  | some trade =>
    if calculate_pnl then
      let remaining_units := trade.units
      let remaining_pnl := (remaining_units : ℚ) * (close_price - trade.entry_price)
      let final_pnl := trade.total_realized_pnl + remaining_pnl
      let final_r_multiple := if 0 < trade.risk_amount then final_pnl / trade.risk_amount else 0
      (true, (m.update_trade trade_id
        { status := some .closed
          close_price := some close_price
          close_date := some now
          final_pnl := some final_pnl
          final_r_multiple := some final_r_multiple
          units := some 0 }).2)
    else
      (true, (m.update_trade trade_id
        { status := some .closed
          close_price := some close_price
          close_date := some now
          units := some 0 }).2)

/-- `TradeManager.delete_trade` (trade_manager.py lines 286-299). -/
def TradeManager.delete_trade (m : TradeManager) (trade_id : String) : Bool × TradeManager :=
  if m.trades.any (fun p => p.1 = trade_id) then
    (true, { trades := m.trades.filter (fun p => ¬ p.1 = trade_id) })
  else (false, m)

/-- The dictionary returned by `PartialSaleManager.calculate_partial_sale`
(partial_sales.py lines 85-96). -/
structure SaleDetails where
  units_sold : ℤ
  units_remaining : ℤ
  sale_proceeds : ℚ
  pnl : ℚ
  r_multiple : ℚ
  sale_price : ℚ
  percentage : ℚ
  should_move_stop : Bool
  recommended_stop : ℚ
  timestamp : String
  deriving DecidableEq, Repr

/-- `PartialSaleManager.calculate_partial_sale` (partial_sales.py lines 22-96).
The trade dict argument is the snapshot of a `Trade`; the timestamp is supplied
by the caller. -/
def calculate_partial_sale (trade : Trade) (sell_percentage current_price : ℚ)
    (now : String) : SaleDetails :=
  let current_units := trade.units
  let entry_price := trade.entry_price
  let original_stop := trade.stop_loss
  let is_short := trade.product_type.isShortType
  let units_to_sell := pytrunc ((current_units : ℚ) * (sell_percentage / 100))
  let units_remaining := current_units - units_to_sell
  let sale_proceeds := (units_to_sell : ℚ) * current_price
  let pnl :=
    if is_short then (units_to_sell : ℚ) * (entry_price - current_price)
    else (units_to_sell : ℚ) * (current_price - entry_price)
  let risk_per_unit := if is_short then original_stop - entry_price else entry_price - original_stop
  let profit_per_unit := if is_short then entry_price - current_price else current_price - entry_price
  let r_multiple := if 0 < risk_per_unit then profit_per_unit / risk_per_unit else 0
  let should_move_stop := 0 < r_multiple ∧ trade.current_stop ≠ entry_price
  { units_sold := units_to_sell
    units_remaining := units_remaining
    sale_proceeds := sale_proceeds
    pnl := pnl
    r_multiple := r_multiple
    sale_price := current_price
    percentage := sell_percentage
    should_move_stop := should_move_stop
    recommended_stop := if should_move_stop then entry_price else trade.current_stop
    timestamp := now }

/-- `PartialSaleManager.execute_partial_sale` (partial_sales.py lines 98-171):
`None` and no mutation when the id is unknown; otherwise the sale is computed
and applied with no check of the trade's status, and when the remaining units
reach 0 the trade is closed through `update_trade`. -/
def execute_partial_sale (m : TradeManager) (trade_id : String)
    (sell_percentage current_price : ℚ) (auto_update_stop : Bool)
    (now : String) : Option SaleDetails × TradeManager :=
  match m.get_trade trade_id with
  | none => (none, m)
  | some trade =>
    let sale_details := calculate_partial_sale trade sell_percentage current_price now
    let new_units := sale_details.units_remaining
    let new_realized_pnl := trade.total_realized_pnl + sale_details.pnl
    let partial_sales := trade.partial_sales ++
      [{ date := sale_details.timestamp
         units_sold := sale_details.units_sold
         price := sale_details.sale_price
         proceeds := sale_details.sale_proceeds
         pnl := sale_details.pnl
         r_multiple := sale_details.r_multiple
         percentage := sale_details.percentage }]
    let trade1 :=
      { trade with
        units := new_units
        total_realized_pnl := new_realized_pnl
        partial_sales := partial_sales
        current_stop :=
          if auto_update_stop ∧ sale_details.should_move_stop then
            sale_details.recommended_stop
          else trade.current_stop }
    let m1 : TradeManager := { trades := setKey m.trades trade_id trade1 }
    if new_units = 0 then
      (some sale_details, (m1.update_trade trade_id
        { status := some .closed
          close_price := some current_price
          close_date := some now
          final_pnl := some new_realized_pnl
          final_r_multiple := some sale_details.r_multiple }).2)
    else
      (some sale_details, m1)

/-- A decoded JSON document, standing for the result value of `json.loads`. -/
inductive JValue
  | null
  | bool (b : Bool)
  | num (q : ℚ)
  | str (s : String)
  | arr (l : List JValue)
  | obj (kvs : List (String × JValue))
  deriving Repr

/-- Field lookup in a JSON object. -/
def JValue.lookup (kvs : List (String × JValue)) (k : String) : Option JValue :=
  (kvs.find? (fun p => p.1 = k)).map (fun p => p.2)

/-- A JSON number read as a Python float. -/
def JValue.asQ : JValue → Option ℚ
  | .num q => some q
  | _ => none

/-- A JSON number read as a Python int. -/
def JValue.asInt : JValue → Option ℤ
  | .num q => if q.den = 1 then some q.num else none
  | _ => none

/-- A JSON string. -/
def JValue.asStr : JValue → Option String
  | .str s => some s
  | _ => none

/-- A nullable float field (`Optional[float]`). -/
def JValue.asOptQ : JValue → Option (Option ℚ)
  | .null => some none
  | .num q => some (some q)
  | _ => none

/-- A nullable string field (`Optional[str]`). -/
def JValue.asOptStr : JValue → Option (Option String)
  | .null => some none
  | .str s => some (some s)
  | _ => none

/-- A status tag string. -/
def JValue.asStatus : JValue → Option TradeStatus
  | .str "planned" => some .planned
  | .str "open" => some .open_
  | .str "closed" => some .closed
  | _ => none

/-- A product-type tag string. -/
def JValue.asProduct : JValue → Option ProductType
  | .str "spot" => some .spot
  | .str "cfd_long" => some .cfd_long
  | .str "cfd_short" => some .cfd_short
  | .str "knockout_long" => some .knockout_long
  | .str "knockout_short" => some .knockout_short
  | _ => none

/-- One partial-sale history entry read back from a backup document. -/
def PartialSaleRecord.from_json (v : JValue) : Option PartialSaleRecord :=
  match v with
  | .obj kvs => do
    let date ← (JValue.lookup kvs "date").bind JValue.asStr
    let units_sold ← (JValue.lookup kvs "units_sold").bind JValue.asInt
    let price ← (JValue.lookup kvs "price").bind JValue.asQ
    let proceeds ← (JValue.lookup kvs "proceeds").bind JValue.asQ
    let pnl ← (JValue.lookup kvs "pnl").bind JValue.asQ
    let r_multiple ← (JValue.lookup kvs "r_multiple").bind JValue.asQ
    let percentage ← (JValue.lookup kvs "percentage").bind JValue.asQ
    pure { date, units_sold, price, proceeds, pnl, r_multiple, percentage }
  | _ => none

/-- The partial-sales list of a trade record. -/
def JValue.asSales : JValue → Option (List PartialSaleRecord)
  | .arr l => l.mapM PartialSaleRecord.from_json
  | _ => none

/-- The 22 keyword arguments of `Trade(...)` that carry no default. -/
def tradeRequiredKeys : List String :=
  ["id", "symbol", "created_at", "status", "product_type", "entry_price",
   "stop_loss", "current_stop", "leverage", "spread_percent", "overnight_percent",
   "holding_days", "units", "original_units", "investment", "exposure",
   "risk_amount", "target_1r", "target_2r", "target_5r", "partial_sales",
   "total_realized_pnl"]

/-- The 4 defaulted keyword arguments of `Trade(...)`. -/
def tradeOptionalKeys : List String :=
  ["close_price", "close_date", "final_pnl", "final_r_multiple"]

/-- A required field of a trade record: absence is a Python `TypeError`
(missing keyword argument of `Trade(**data)`). -/
def reqField (kvs : List (String × JValue)) (k : String) (conv : JValue → Option α) :
    Except PyErr α :=
  match JValue.lookup kvs k with
  | none => .error (.typeError "Trade() missing required argument")
  | some v =>
    match conv v with
    | some a => .ok a
    | none => .error (.typeError "unexpected field value")

/-- A defaulted field of a trade record. -/
def optField (kvs : List (String × JValue)) (k : String) (conv : JValue → Option α)
    (dflt : α) : Except PyErr α :=
  match JValue.lookup kvs k with
  | none => .ok dflt
  | some v =>
    match conv v with
    | some a => .ok a
    | none => .error (.typeError "unexpected field value")

/-- `Trade.from_dict(data)`, i.e. `Trade(**data)` (trade_manager.py lines
63-66).  A non-mapping argument, a missing required keyword, or a keyword
outside the dataclass fields raises `TypeError` in Python; field values are
additionally converted to the declared field types here (the Python dataclass
stores values unchecked, so this embedding is exercised by the claims only on
the key structure of the record). -/
def Trade.from_dict (v : JValue) : Except PyErr Trade :=
  match v with
  | .obj kvs =>
    if kvs.any (fun p => ¬ (tradeRequiredKeys ++ tradeOptionalKeys).contains p.1) then
      .error (.typeError "Trade() got an unexpected keyword argument")
    else do
      let id ← reqField kvs "id" JValue.asStr
      let symbol ← reqField kvs "symbol" JValue.asStr
      let created_at ← reqField kvs "created_at" JValue.asStr
      let status ← reqField kvs "status" JValue.asStatus
      let product_type ← reqField kvs "product_type" JValue.asProduct
      let entry_price ← reqField kvs "entry_price" JValue.asQ
      let stop_loss ← reqField kvs "stop_loss" JValue.asQ
      let current_stop ← reqField kvs "current_stop" JValue.asQ
      let leverage ← reqField kvs "leverage" JValue.asQ
      let spread_percent ← reqField kvs "spread_percent" JValue.asQ
      let overnight_percent ← reqField kvs "overnight_percent" JValue.asQ
      let holding_days ← reqField kvs "holding_days" JValue.asInt
      let units ← reqField kvs "units" JValue.asInt
      let original_units ← reqField kvs "original_units" JValue.asInt
      let investment ← reqField kvs "investment" JValue.asQ
      let exposure ← reqField kvs "exposure" JValue.asQ
      let risk_amount ← reqField kvs "risk_amount" JValue.asQ
      let target_1r ← reqField kvs "target_1r" JValue.asQ
      let target_2r ← reqField kvs "target_2r" JValue.asQ
      let target_5r ← reqField kvs "target_5r" JValue.asQ
      let partial_sales ← reqField kvs "partial_sales" JValue.asSales
      let total_realized_pnl ← reqField kvs "total_realized_pnl" JValue.asQ
      let close_price ← optField kvs "close_price" JValue.asOptQ none
      let close_date ← optField kvs "close_date" JValue.asOptStr none
      let final_pnl ← optField kvs "final_pnl" JValue.asOptQ none
      let final_r_multiple ← optField kvs "final_r_multiple" JValue.asOptQ none
      pure { id, symbol, created_at, status, product_type, entry_price, stop_loss,
             current_stop, leverage, spread_percent, overnight_percent, holding_days,
             units, original_units, investment, exposure, risk_amount,
             target_1r, target_2r, target_5r, partial_sales, total_realized_pnl,
             close_price, close_date, final_pnl, final_r_multiple }
  | _ => .error (.typeError "argument after ** must be a mapping")

/-- `TradeManager.import_from_dict` (trade_manager.py lines 356-366): the dict
comprehension over `data.items()` is evaluated fully before `self.trades` is
reassigned, so a conversion error escapes before any mutation; calling it on a
non-dict raises `AttributeError` (`.items()`). -/
def TradeManager.import_from_dict (data : JValue) : Except PyErr (List (String × Trade)) :=
  match data with
  | .obj kvs => kvs.mapM (fun p => (Trade.from_dict p.2).map (fun t => (p.1, t)))
  | _ => .error (.attributeError "items")

/-- The outcome of a Python call: a returned value or an uncaught exception. -/
inductive PyOutcome (α : Type)
  | ok (a : α)
  | raised (e : PyErr)
  deriving DecidableEq, Repr

/-- `'trades' in backup_data` for each possible top-level value, with Python's
membership semantics: key lookup on dicts, element equality on lists, substring
test on strings, `TypeError` on non-containers. -/
def containsTradesKey : JValue → Except PyErr Bool
  | .obj kvs => .ok (kvs.any (fun p => p.1 = "trades"))
  | .arr l => .ok (l.any (fun v => match v with | .str s => s = "trades" | _ => false))
  | .str s => .ok (2 ≤ (s.splitOn "trades").length)
  | _ => .error (.typeError "argument of type is not iterable")

/-- `backup_data['trades']` after a successful membership test: string
subscripts are only legal on dicts. -/
def subscriptTrades : JValue → Except PyErr JValue
  | .obj kvs =>
    match JValue.lookup kvs "trades" with
    | some v => .ok v
    | none => .error (.typeError "unreachable after membership test")
  | _ => .error (.typeError "indices must be integers")

/-- `DataExporter.import_trades_from_json` (export.py lines 101-123).  The
`parsed` argument is the result of `json.loads(json_string)`: `Except.error`
stands for a `json.JSONDecodeError`.  The `try` block catches only
`JSONDecodeError` and `KeyError`; a `TypeError` or `AttributeError` raised
while rebuilding the trades propagates to the caller. -/
def import_trades_from_json (m : TradeManager) (parsed : Except Unit JValue) :
    PyOutcome Bool × TradeManager :=
  match parsed with
  | .error _ => (.ok false, m)
  | .ok backup_data =>
    match containsTradesKey backup_data with
    | .error e => (.raised e, m)
    | .ok false => (.ok false, m)
    | .ok true =>
      match subscriptTrades backup_data with
      | .error e => (.raised e, m)
      | .ok tv =>
        match TradeManager.import_from_dict tv with
        | .error e => (.raised e, m)
        | .ok trades => (.ok true, { trades := trades })

/-- The direction precondition of the sizing operation: short variants need
`entry < stop`, long variants `stop < entry` (calculator.py lines 115-122). -/
def directionOk (product_type : ProductType) (entry_price stop_loss : ℚ) : Prop :=
  if product_type.isShortType = true then entry_price < stop_loss else stop_loss < entry_price

/-- A trade whose cumulative realized P&L agrees with the sum of the pnl
values of its recorded partial sales (true of every freshly created trade). -/
def realizedMatchesSales (t : Trade) : Prop :=
  t.total_realized_pnl = (t.partial_sales.map PartialSaleRecord.pnl).sum

/-- Apply a sequence of partial sales `(percentage, price)` to one trade,
threading the manager state. -/
def applySales (m : TradeManager) (trade_id : String) (ops : List (ℚ × ℚ))
    (now : String) : TradeManager :=
  ops.foldl (fun acc op => (execute_partial_sale acc trade_id op.1 op.2 true now).2) m

/-- Test fixture: a trade as `create_trade` builds it, with the lifecycle
fields in their initial state. -/
def mkTradeEx (status : TradeStatus) (product_type : ProductType)
    (entry_price stop_loss : ℚ) (units : ℤ) (risk_amount : ℚ) : Trade :=
  { id := "t1"
    symbol := "SYM"
    created_at := "2025-01-01 00:00:00"
    status := status
    product_type := product_type
    entry_price := entry_price
    stop_loss := stop_loss
    current_stop := stop_loss
    leverage := 1
    spread_percent := 0
    overnight_percent := 0
    holding_days := 1
    units := units
    original_units := units
    investment := (units : ℚ) * entry_price
    exposure := (units : ℚ) * entry_price
    risk_amount := risk_amount
    target_1r := 0
    target_2r := 0
    target_5r := 0
    partial_sales := []
    total_realized_pnl := 0
    close_price := none
    close_date := none
    final_pnl := none
    final_r_multiple := none }

/-- Fixture: an open short CFD trade (entry 120, stop 125, 100 units). -/
def tShortEx : Trade := mkTradeEx .open_ .cfd_short 120 125 100 500

/-- Fixture: a planned spot trade (entry 120, stop 115, 100 units). -/
def tPlannedEx : Trade := mkTradeEx .planned .spot 120 115 100 500

/-- Fixture: an open spot trade with 10 units (not divisible by 4). -/
def tTenEx : Trade := mkTradeEx .open_ .spot 120 115 10 50

/-- Fixture managers holding one trade each. -/
def mShort : TradeManager := { trades := [("s1", tShortEx)] }

/-- Fixture manager with one planned trade. -/
def mPlanned : TradeManager := { trades := [("p1", tPlannedEx)] }

/-- Fixture manager with one open 10-unit trade. -/
def mTen : TradeManager := { trades := [("q1", tTenEx)] }

theorem find?_setKey (l : List (String × Trade)) (k : String) (v : Trade) :
    (setKey l k v).find? (fun p => p.1 = k) = some (k, v) := by
  induction l with
  | nil => simp [setKey]
  | cons p rest ih =>
    by_cases h : p.1 = k
    · simp [setKey, h]
    · simp [setKey, h, List.find?, ih]

theorem get_trade_setKey (l : List (String × Trade)) (k : String) (v : Trade) :
    TradeManager.get_trade { trades := setKey l k v } k = some v := by
  simp [TradeManager.get_trade, find?_setKey]

theorem pytrunc_of_nonneg {q : ℚ} (h : 0 ≤ q) : pytrunc q = ⌊q⌋ := if_pos h

theorem pytrunc_intCast (n : ℤ) : pytrunc (n : ℚ) = n := by
  unfold pytrunc
  split <;> simp

theorem pytrunc_nonneg {q : ℚ} (h : 0 ≤ q) : 0 ≤ pytrunc q := by
  rw [pytrunc_of_nonneg h]
  exact Int.floor_nonneg.mpr h

theorem calculate_position_of_valid
    {portfolio_value risk_percentage entry_price stop_loss : ℚ}
    {product_type : ProductType} {leverage : ℚ} (spread_percent overnight_percent : ℚ)
    (holding_days : ℤ)
    (hpv : 0 < portfolio_value) (hrp0 : 0 < risk_percentage) (hrp1 : risk_percentage ≤ 100)
    (he : 0 < entry_price) (hs : 0 < stop_loss) (hlev : 1 ≤ leverage)
    (hdir : directionOk product_type entry_price stop_loss) :
    calculate_position portfolio_value risk_percentage entry_price stop_loss
      product_type leverage spread_percent overnight_percent holding_days =
    if total_risk_per_unit_of product_type entry_price stop_loss leverage
        spread_percent overnight_percent holding_days = 0 then
      .error .zeroDivisionError
    else
      .ok (calcResult portfolio_value risk_percentage entry_price stop_loss
        product_type leverage spread_percent overnight_percent holding_days) := by
  unfold directionOk at hdir
  unfold calculate_position
  rw [if_neg (not_le.mpr hpv)]
  rw [if_neg (by push_neg; exact ⟨hrp0, hrp1⟩ : ¬(risk_percentage ≤ 0 ∨ 100 < risk_percentage))]
  rw [if_neg (not_le.mpr he)]
  rw [if_neg (not_le.mpr hs)]
  rw [if_neg (not_lt.mpr hlev)]
  rw [if_neg (fun hc => by
    rw [if_pos hc.1] at hdir
    exact absurd hc.2 (not_le.mpr hdir) : ¬(product_type.isShortType = true ∧ stop_loss ≤ entry_price))]
  rw [if_neg (fun hc => by
    rw [if_neg (by simp [hc.1])] at hdir
    exact absurd hc.2 (not_le.mpr hdir) : ¬(product_type.isShortType = false ∧ entry_price ≤ stop_loss))]

/-- C9: the R-multiple computed for a partial sale is identical for any two
values of the trade's current (trailed) stop — it is computed from the
original entry price, the original stop-loss and the sale price only, so
trailing the stop between sales never changes a slice's R-multiple. -/
theorem partial_sale_r_multiple_ignores_current_stop (t : Trade)
    (s1 s2 sell_percentage current_price : ℚ) (now : String) :
    (calculate_partial_sale { t with current_stop := s1 } sell_percentage current_price now).r_multiple =
    (calculate_partial_sale { t with current_stop := s2 } sell_percentage current_price now).r_multiple :=
  rfl

/-- C1 (failing input): for a short-variant trade (cfd_short, entry 120,
stop 125, 100 remaining units, no realized P&L), `close_trade` at close
price 110 succeeds but stores finalPnl = 100 × (110 − 120) = −1000: the
remaining-unit term is closePrice − entryPrice even for shorts, while the
direction-signed value the claim (and partial_sales.py) prescribe is
entryPrice − closePrice, i.e. +1000. -/
theorem close_trade_short_uses_unsigned_price_move :
    (TradeManager.close_trade mShort "s1" 110 true "d").1 = true ∧
    ((TradeManager.close_trade mShort "s1" 110 true "d").2.get_trade "s1").map
      Trade.final_pnl = some (some (-1000)) ∧
    tShortEx.total_realized_pnl
      + (tShortEx.units : ℚ) * (tShortEx.entry_price - 110) = 1000 := by
  refine ⟨rfl, ?_, by norm_num [tShortEx, mkTradeEx]⟩
  norm_num [mShort, tShortEx, mkTradeEx, TradeManager.close_trade, TradeManager.get_trade,
    TradeManager.update_trade, applyUpdates, setKey, List.find?, Option.map, Option.getD]

/-- C6: for every input accepted by the sizing preconditions with positive
totalRiskPerUnit, the returned unit count is floor(maxRisk / totalRiskPerUnit)
with maxRisk = portfolioValue × riskPercent/100, hence
units × totalRiskPerUnit ≤ maxRisk < (units + 1) × totalRiskPerUnit. -/
theorem units_floor_of_risk_budget
    {portfolio_value risk_percentage entry_price stop_loss : ℚ}
    {product_type : ProductType} {leverage : ℚ} (spread_percent overnight_percent : ℚ)
    (holding_days : ℤ)
    (hpv : 0 < portfolio_value) (hrp0 : 0 < risk_percentage) (hrp1 : risk_percentage ≤ 100)
    (he : 0 < entry_price) (hs : 0 < stop_loss) (hlev : 1 ≤ leverage)
    (hdir : directionOk product_type entry_price stop_loss)
    (htot : 0 < total_risk_per_unit_of product_type entry_price stop_loss leverage
      spread_percent overnight_percent holding_days) :
    ∃ r, calculate_position portfolio_value risk_percentage entry_price stop_loss
        product_type leverage spread_percent overnight_percent holding_days = .ok r ∧
      r.units = ⌊portfolio_value * (risk_percentage / 100) /
        total_risk_per_unit_of product_type entry_price stop_loss leverage
          spread_percent overnight_percent holding_days⌋ ∧
      (r.units : ℚ) * total_risk_per_unit_of product_type entry_price stop_loss leverage
          spread_percent overnight_percent holding_days
        ≤ portfolio_value * (risk_percentage / 100) ∧
      portfolio_value * (risk_percentage / 100)
        < ((r.units : ℚ) + 1) * total_risk_per_unit_of product_type entry_price stop_loss
            leverage spread_percent overnight_percent holding_days := by
  have hcp := calculate_position_of_valid spread_percent overnight_percent holding_days
    hpv hrp0 hrp1 he hs hlev hdir
  rw [if_neg htot.ne'] at hcp
  set total := total_risk_per_unit_of product_type entry_price stop_loss leverage
    spread_percent overnight_percent holding_days with htotal
  set max_risk := portfolio_value * (risk_percentage / 100) with hmax
  have hmr : 0 < max_risk := by
    rw [hmax]; positivity
  have hq : 0 ≤ max_risk / total := le_of_lt (div_pos hmr htot)
  have hunits : (calcResult portfolio_value risk_percentage entry_price stop_loss
      product_type leverage spread_percent overnight_percent holding_days).units
      = pytrunc (max_risk / total) := rfl
  rw [pytrunc_of_nonneg hq] at hunits
  refine ⟨_, hcp, hunits, ?_, ?_⟩
  · rw [hunits]
    calc ((⌊max_risk / total⌋ : ℚ)) * total
        ≤ (max_risk / total) * total :=
          mul_le_mul_of_nonneg_right (Int.floor_le _) htot.le
      _ = max_risk := div_mul_cancel₀ _ htot.ne'
  · rw [hunits]
    have h2 : max_risk / total < (⌊max_risk / total⌋ : ℚ) + 1 := Int.lt_floor_add_one _
    calc max_risk = (max_risk / total) * total := (div_mul_cancel₀ _ htot.ne').symm
      _ < ((⌊max_risk / total⌋ : ℚ) + 1) * total := mul_lt_mul_of_pos_right h2 htot

/-- C6 witness: Scenario 1 — portfolio 50000, risk 1%, entry 120, stop 115,
Spot: maxRisk 500, totalRiskPerUnit 5, units 100. -/
theorem units_floor_of_risk_budget_witness :
    ∃ r, calculate_position 50000 1 120 115 .spot 1 0 0 1 = .ok r ∧
      r.units = ⌊(50000 : ℚ) * (1 / 100) / total_risk_per_unit_of .spot 120 115 1 0 0 1⌋ ∧
      (r.units : ℚ) * total_risk_per_unit_of .spot 120 115 1 0 0 1 ≤ 50000 * (1 / 100) ∧
      (50000 : ℚ) * (1 / 100) <
        ((r.units : ℚ) + 1) * total_risk_per_unit_of .spot 120 115 1 0 0 1 :=
  units_floor_of_risk_budget 0 0 1 (by norm_num) (by norm_num) (by norm_num)
    (by norm_num) (by norm_num) (by norm_num)
    (by norm_num [directionOk, ProductType.isShortType])
    (by norm_num [total_risk_per_unit_of, effective_risk_of, spread_cost_per_unit_of,
      overnight_cost_per_unit_of, basis_risk_of, ProductType.isShortType])

theorem total_risk_per_unit_spot (e s lev sp ov : ℚ) (d : ℤ) :
    total_risk_per_unit_of .spot e s lev sp ov d = e - s := by
  show e - s + 0 + 0 = e - s
  ring

theorem total_risk_per_unit_cfd_long (e s lev sp ov : ℚ) (d : ℤ) :
    total_risk_per_unit_of .cfd_long e s lev sp ov d
      = (e - s) * lev + e * (sp / 100) + e * (ov / 100) * (d : ℚ) := rfl

theorem directionOk_spot (e s : ℚ) : directionOk .spot e s ↔ s < e := Iff.rfl

theorem directionOk_cfd_long (e s : ℚ) : directionOk .cfd_long e s ↔ s < e := Iff.rfl

/-- C3 (counterexample): portfolio 50000, risk 1%, entry 120, stop 115,
CfdLong, leverage 1, spreadPercent −5: totalRiskPerUnit = 5 − 6 = −1 ≤ 0,
yet the sizing operation does not fail with a typed DegenerateRisk error —
it divides by the negative total and returns a result (with −500 units). -/
theorem calculate_position_no_degenerate_risk_guard :
    total_risk_per_unit_of .cfd_long 120 115 1 (-5) 0 1 = -1 ∧
    calculate_position 50000 1 120 115 .cfd_long 1 (-5) 0 1 =
      .ok (calcResult 50000 1 120 115 .cfd_long 1 (-5) 0 1) ∧
    (calcResult 50000 1 120 115 .cfd_long 1 (-5) 0 1).units = -500 := by
  have htot : total_risk_per_unit_of .cfd_long 120 115 1 (-5) 0 1 = -1 := by
    rw [total_risk_per_unit_cfd_long]; norm_num
  refine ⟨htot, ?_, ?_⟩
  · have hv := @calculate_position_of_valid 50000 1 120 115 ProductType.cfd_long 1 (-5) 0 1
      (by norm_num) (by norm_num) (by norm_num) (by norm_num) (by norm_num) (by norm_num)
      ((directionOk_cfd_long 120 115).mpr (by norm_num))
    rw [htot, if_neg (by norm_num)] at hv
    exact hv
  · have hu : (calcResult 50000 1 120 115 .cfd_long 1 (-5) 0 1).units
        = pytrunc (50000 * ((1 : ℚ) / 100) /
            total_risk_per_unit_of .cfd_long 120 115 1 (-5) 0 1) := rfl
    rw [hu, htot, show (50000 : ℚ) * ((1 : ℚ) / 100) / (-1 : ℚ) = ((-500 : ℤ) : ℚ) by norm_num,
      pytrunc_intCast]

/-- C3 amended: the source has no DegenerateRisk guard.  For inputs passing
the sizing preconditions, a negative totalRiskPerUnit (reachable with a
sufficiently negative spreadPercent or overnightPercent) produces a normal
result whose unit count is non-positive, and a totalRiskPerUnit of exactly
zero raises an untyped ZeroDivisionError from the unguarded division. -/
theorem total_risk_not_guarded
    {portfolio_value risk_percentage entry_price stop_loss : ℚ}
    {product_type : ProductType} {leverage : ℚ} (spread_percent overnight_percent : ℚ)
    (holding_days : ℤ)
    (hpv : 0 < portfolio_value) (hrp0 : 0 < risk_percentage) (hrp1 : risk_percentage ≤ 100)
    (he : 0 < entry_price) (hs : 0 < stop_loss) (hlev : 1 ≤ leverage)
    (hdir : directionOk product_type entry_price stop_loss) :
    (total_risk_per_unit_of product_type entry_price stop_loss leverage
        spread_percent overnight_percent holding_days < 0 →
      calculate_position portfolio_value risk_percentage entry_price stop_loss
          product_type leverage spread_percent overnight_percent holding_days =
        .ok (calcResult portfolio_value risk_percentage entry_price stop_loss
          product_type leverage spread_percent overnight_percent holding_days) ∧
      (calcResult portfolio_value risk_percentage entry_price stop_loss
        product_type leverage spread_percent overnight_percent holding_days).units ≤ 0) ∧
    (total_risk_per_unit_of product_type entry_price stop_loss leverage
        spread_percent overnight_percent holding_days = 0 →
      calculate_position portfolio_value risk_percentage entry_price stop_loss
        product_type leverage spread_percent overnight_percent holding_days =
      .error .zeroDivisionError) := by
  have hcp := calculate_position_of_valid spread_percent overnight_percent holding_days
    hpv hrp0 hrp1 he hs hlev hdir
  constructor
  · intro hneg
    rw [if_neg hneg.ne] at hcp
    refine ⟨hcp, ?_⟩
    have hmr : 0 < portfolio_value * (risk_percentage / 100) := by positivity
    have hq : portfolio_value * (risk_percentage / 100) /
        total_risk_per_unit_of product_type entry_price stop_loss leverage
          spread_percent overnight_percent holding_days < 0 :=
      div_neg_of_pos_of_neg hmr hneg
    have hu : (calcResult portfolio_value risk_percentage entry_price stop_loss
        product_type leverage spread_percent overnight_percent holding_days).units
        = pytrunc (portfolio_value * (risk_percentage / 100) /
            total_risk_per_unit_of product_type entry_price stop_loss leverage
              spread_percent overnight_percent holding_days) := rfl
    rw [hu, pytrunc, if_neg (not_le.mpr hq)]
    exact Int.ceil_le.mpr (by exact_mod_cast hq.le)
  · intro h0
    rw [if_pos h0] at hcp
    exact hcp

/-- C3 witness: the amended statement at the counterexample input
(spreadPercent −5, totalRiskPerUnit −1). -/
theorem total_risk_not_guarded_witness :
    calculate_position 50000 1 120 115 .cfd_long 1 (-5) 0 1 =
      .ok (calcResult 50000 1 120 115 .cfd_long 1 (-5) 0 1) ∧
    (calcResult 50000 1 120 115 .cfd_long 1 (-5) 0 1).units ≤ 0 :=
  (total_risk_not_guarded (-5) 0 1 (by norm_num) (by norm_num) (by norm_num)
    (by norm_num) (by norm_num) (by norm_num)
    ((directionOk_cfd_long 120 115).mpr (by norm_num))).1
    (by rw [total_risk_per_unit_cfd_long]; norm_num)

/-- C7 (counterexample): sizing with the Spot variant does not ignore a
leverage below 1 — `_validate_inputs` rejects leverage 1/2 with a
ValueError before the Spot branch is reached, instead of returning a result
with leverageUsed = 1. -/
theorem spot_leverage_below_one_rejected :
    calculate_position 50000 1 120 115 .spot (1 / 2) 0 0 1 =
      .error (.valueError "Leverage muss >= 1 sein") := by
  norm_num [calculate_position]

/-- C7 amended: for leverage values accepted by validation (≥ 1), sizing with
the Spot variant ignores leverage, spreadPercent, overnightPercent and
holdingDays: it returns leverageUsed = 1, spreadCostTotal = 0,
overnightCostTotal = 0, notional equal to investment, and the same result for
any other accepted parameter values; leverage below 1 is rejected by
validation first. -/
theorem spot_ignores_leverage_and_costs
    {portfolio_value risk_percentage entry_price stop_loss : ℚ}
    (leverage spread_percent overnight_percent : ℚ) (holding_days : ℤ)
    (leverage2 spread_percent2 overnight_percent2 : ℚ) (holding_days2 : ℤ)
    (hpv : 0 < portfolio_value) (hrp0 : 0 < risk_percentage) (hrp1 : risk_percentage ≤ 100)
    (he : 0 < entry_price) (hs : 0 < stop_loss) (hlev : 1 ≤ leverage)
    (hlev2 : 1 ≤ leverage2) (hdir : stop_loss < entry_price) :
    ∃ r, calculate_position portfolio_value risk_percentage entry_price stop_loss
        .spot leverage spread_percent overnight_percent holding_days = .ok r ∧
      r.leverage = 1 ∧ r.spread_cost_total = 0 ∧ r.overnight_cost_total = 0 ∧
      r.notional_value = r.actual_investment ∧
      calculate_position portfolio_value risk_percentage entry_price stop_loss
        .spot leverage2 spread_percent2 overnight_percent2 holding_days2 = .ok r := by
  have hdirOk : directionOk .spot entry_price stop_loss :=
    (directionOk_spot entry_price stop_loss).mpr hdir
  have hne : entry_price - stop_loss ≠ 0 := sub_ne_zero.mpr (ne_of_gt hdir)
  have h1 := calculate_position_of_valid spread_percent overnight_percent holding_days
    hpv hrp0 hrp1 he hs hlev hdirOk
  rw [total_risk_per_unit_spot, if_neg hne] at h1
  have h2 := calculate_position_of_valid spread_percent2 overnight_percent2 holding_days2
    hpv hrp0 hrp1 he hs hlev2 hdirOk
  rw [total_risk_per_unit_spot, if_neg hne] at h2
  have hres : calcResult portfolio_value risk_percentage entry_price stop_loss
      .spot leverage2 spread_percent2 overnight_percent2 holding_days2
      = calcResult portfolio_value risk_percentage entry_price stop_loss
        .spot leverage spread_percent overnight_percent holding_days := by
    simp [calcResult, leverage_used_of, spread_cost_per_unit_of,
      overnight_cost_per_unit_of, total_risk_per_unit_of, effective_risk_of, basis_risk_of]
  refine ⟨_, h1, rfl, ?_, ?_, rfl, by rw [← hres]; exact h2⟩
  · simp [calcResult, spread_cost_per_unit_of]
  · simp [calcResult, overnight_cost_per_unit_of]

/-- C7 witness: the amended statement at Scenario 1 inputs with two different
leverage/cost parameter sets. -/
theorem spot_ignores_leverage_and_costs_witness :
    ∃ r, calculate_position 50000 1 120 115 .spot 1 0 0 1 = .ok r ∧
      r.leverage = 1 ∧ r.spread_cost_total = 0 ∧ r.overnight_cost_total = 0 ∧
      r.notional_value = r.actual_investment ∧
      calculate_position 50000 1 120 115 .spot 7 3 2 9 = .ok r :=
  spot_ignores_leverage_and_costs 1 0 0 1 7 3 2 9 (by norm_num) (by norm_num)
    (by norm_num) (by norm_num) (by norm_num) (by norm_num) (by norm_num) (by norm_num)

theorem units_remaining_eq (t : Trade) (pct price : ℚ) (now : String) :
    (calculate_partial_sale t pct price now).units_remaining
      = t.units - pytrunc ((t.units : ℚ) * (pct / 100)) := rfl

theorem execute_partial_sale_get (m : TradeManager) (trade_id : String)
    (pct price : ℚ) (auto : Bool) (now : String) (t : Trade)
    (ht : m.get_trade trade_id = some t) :
    ∃ t2, (execute_partial_sale m trade_id pct price auto now).2.get_trade trade_id = some t2 ∧
      t2.units = (calculate_partial_sale t pct price now).units_remaining ∧
      t2.total_realized_pnl = t.total_realized_pnl + (calculate_partial_sale t pct price now).pnl ∧
      t2.partial_sales = t.partial_sales ++
        [{ date := (calculate_partial_sale t pct price now).timestamp
           units_sold := (calculate_partial_sale t pct price now).units_sold
           price := (calculate_partial_sale t pct price now).sale_price
           proceeds := (calculate_partial_sale t pct price now).sale_proceeds
           pnl := (calculate_partial_sale t pct price now).pnl
           r_multiple := (calculate_partial_sale t pct price now).r_multiple
           percentage := (calculate_partial_sale t pct price now).percentage }] ∧
      ((calculate_partial_sale t pct price now).units_remaining = 0 →
        t2.status = .closed ∧
        t2.final_pnl = some (t.total_realized_pnl + (calculate_partial_sale t pct price now).pnl)) ∧
      ((calculate_partial_sale t pct price now).units_remaining ≠ 0 → t2.status = t.status) := by
  simp only [execute_partial_sale, ht]
  split
  · case isTrue h0 =>
    simp only [TradeManager.update_trade, get_trade_setKey]
    exact ⟨_, rfl, rfl, rfl, rfl, fun _ => ⟨rfl, rfl⟩, fun hne => absurd h0 hne⟩
  · case isFalse h0 =>
    exact ⟨_, get_trade_setKey _ _ _, rfl, rfl, rfl, fun h => absurd h h0, fun _ => rfl⟩

/-- C2 amended: applying a partial exit through the ledger fails (returning
None, with no trade mutated) exactly when the trade id is unknown; for an
existing trade the sale is computed and applied regardless of the trade's
status — there is no TradeNotOpen check, so Planned and Closed trades are
not rejected. -/
theorem execute_partial_sale_checks_only_existence (m : TradeManager) (trade_id : String)
    (pct price : ℚ) (auto : Bool) (now : String) :
    (m.get_trade trade_id = none →
      execute_partial_sale m trade_id pct price auto now = (none, m)) ∧
    (∀ t, m.get_trade trade_id = some t →
      (execute_partial_sale m trade_id pct price auto now).1
        = some (calculate_partial_sale t pct price now)) := by
  constructor
  · intro h
    simp only [execute_partial_sale, h]
  · intro t ht
    simp only [execute_partial_sale, ht]
    split <;> rfl

/-- C2 (counterexample): a partial sale of 25% at price 125 against a
Planned (not Open) trade with 100 units is not rejected with TradeNotOpen:
the trade is mutated to 75 remaining units while still in status Planned. -/
theorem partial_sale_on_planned_trade_applies :
    ((execute_partial_sale mPlanned "p1" 25 125 true "d").2.get_trade "p1").map
      Trade.units = some 75 ∧
    ((execute_partial_sale mPlanned "p1" 25 125 true "d").2.get_trade "p1").map
      Trade.status = some .planned ∧
    tPlannedEx.status = .planned ∧ tPlannedEx.units = 100 := by
  obtain ⟨t2, hget, hunits, hrl, hps, hcl, hstat⟩ :=
    execute_partial_sale_get mPlanned "p1" 25 125 true "d" tPlannedEx rfl
  have h75 : (calculate_partial_sale tPlannedEx 25 125 "d").units_remaining = 75 := by
    rw [units_remaining_eq]
    norm_num [tPlannedEx, mkTradeEx, pytrunc]
  refine ⟨?_, ?_, rfl, rfl⟩
  · rw [hget]
    simp [hunits, h75]
  · rw [hget]
    have hst := hstat (by rw [h75]; norm_num)
    simp [hst, tPlannedEx, mkTradeEx]

/-- C2 witness: the amended statement at an unknown trade id. -/
theorem execute_partial_sale_unknown_id_witness :
    execute_partial_sale mPlanned "zzz" 25 125 true "d" = (none, mPlanned) :=
  (execute_partial_sale_checks_only_existence mPlanned "zzz" 25 125 true "d").1 rfl

/-- C5 amended: under the partial-exit operation (with a non-negative sell
percentage and non-negative remaining units) remaining units never increase
and a trade whose remaining units reach 0 is put in status Closed, and the
close operation always sets remaining units to 0 with status Closed; the
claim fails for `update_trade`, which accepts arbitrary writes to `units`
(it can increase units or zero them while leaving the status untouched). -/
theorem units_nonincreasing_and_zero_closes (m : TradeManager) (trade_id : String)
    (pct price : ℚ) (auto : Bool) (now : String) :
    (∀ t, m.get_trade trade_id = some t → 0 ≤ t.units → 0 ≤ pct →
      ∃ t2, (execute_partial_sale m trade_id pct price auto now).2.get_trade trade_id
          = some t2 ∧
        t2.units ≤ t.units ∧ (t2.units = 0 → t2.status = .closed)) ∧
    (∀ t b, m.get_trade trade_id = some t →
      ∃ t2, (m.close_trade trade_id price b now).2.get_trade trade_id = some t2 ∧
        t2.units = 0 ∧ t2.status = .closed) := by
  constructor
  · intro t ht hu hp
    obtain ⟨t2, hget, hunits, hrl, hps, hcl, hstat⟩ :=
      execute_partial_sale_get m trade_id pct price auto now t ht
    refine ⟨t2, hget, ?_, ?_⟩
    · rw [hunits, units_remaining_eq]
      have hnn : 0 ≤ pytrunc ((t.units : ℚ) * (pct / 100)) :=
        pytrunc_nonneg (mul_nonneg (by exact_mod_cast hu) (div_nonneg hp (by norm_num)))
      omega
    · intro h0
      exact (hcl (by rw [← hunits]; exact h0)).1
  · intro t b ht
    cases b
    · simp only [TradeManager.close_trade, TradeManager.update_trade, ht, Bool.false_eq_true,
        if_false]
      refine ⟨_, get_trade_setKey _ _ _, ?_, ?_⟩
      · rfl
      · rfl
    · simp only [TradeManager.close_trade, TradeManager.update_trade, ht, if_true]
      exact ⟨_, get_trade_setKey _ _ _, rfl, rfl⟩

/-- C5 (counterexample): `update_trade` accepts arbitrary `units` writes: it
can raise a 10-unit open trade to 20 units (remaining units increase), and it
can set units to 0 while the status stays Open (not Closed). -/
theorem update_trade_breaks_units_invariants :
    ((mTen.update_trade "q1" { units := some 20 }).2.get_trade "q1").map
      Trade.units = some 20 ∧
    ((mTen.update_trade "q1" { units := some 20 }).2.get_trade "q1").map
      Trade.status = some .open_ ∧
    (mTen.get_trade "q1").map Trade.units = some 10 ∧
    ((mTen.update_trade "q1" { units := some 0 }).2.get_trade "q1").map
      Trade.units = some 0 ∧
    ((mTen.update_trade "q1" { units := some 0 }).2.get_trade "q1").map
      Trade.status = some .open_ := by
  exact ⟨rfl, rfl, rfl, rfl, rfl⟩

/-- C5 witness: the amended statement at a concrete open 10-unit trade with a
25% sale, and at a close of the same trade. -/
theorem units_nonincreasing_and_zero_closes_witness :
    (∃ t2, (execute_partial_sale mTen "q1" 25 125 true "d").2.get_trade "q1" = some t2 ∧
      t2.units ≤ tTenEx.units ∧ (t2.units = 0 → t2.status = .closed)) ∧
    (∃ t2, (mTen.close_trade "q1" 125 true "d").2.get_trade "q1" = some t2 ∧
      t2.units = 0 ∧ t2.status = .closed) :=
  ⟨(units_nonincreasing_and_zero_closes mTen "q1" 25 125 true "d").1 tTenEx rfl
      (by decide) (by norm_num),
   (units_nonincreasing_and_zero_closes mTen "q1" 25 125 true "d").2 tTenEx true rfl⟩

/-- C10: for every trade id present in the ledger, `close_trade` (with P&L
computation) returns true regardless of the trade's current status — Planned
trades and already-Closed trades are not rejected — and overwrites
closePrice, closeDate, finalPnl and finalRMultiple with values recomputed at
the new close price, zeroing the remaining units; when the remaining units
are already 0 (a re-close) the stored finalPnl is exactly the cumulative
realized P&L; false is returned only for an unknown id, with no mutation. -/
theorem close_trade_succeeds_for_any_status (m : TradeManager) (trade_id : String)
    (close_price : ℚ) (now : String) :
    (m.get_trade trade_id = none →
      m.close_trade trade_id close_price true now = (false, m)) ∧
    (∀ t, m.get_trade trade_id = some t →
      (m.close_trade trade_id close_price true now).1 = true ∧
      ∃ t2, (m.close_trade trade_id close_price true now).2.get_trade trade_id = some t2 ∧
        t2.status = .closed ∧ t2.close_price = some close_price ∧
        t2.close_date = some now ∧ t2.units = 0 ∧
        t2.final_pnl = some (t.total_realized_pnl
          + (t.units : ℚ) * (close_price - t.entry_price)) ∧
        t2.final_r_multiple = some (if 0 < t.risk_amount
          then (t.total_realized_pnl + (t.units : ℚ) * (close_price - t.entry_price))
            / t.risk_amount
          else 0) ∧
        (t.units = 0 → t2.final_pnl = some t.total_realized_pnl)) := by
  constructor
  · intro h
    simp only [TradeManager.close_trade, h]
  · intro t ht
    simp only [TradeManager.close_trade, TradeManager.update_trade, ht, if_true]
    refine ⟨trivial, _, get_trade_setKey _ _ _, rfl, rfl, rfl, rfl, rfl, rfl, fun h0 => ?_⟩
    simp [applyUpdates, h0]

/-- C10 witness: closing a Planned trade is accepted and returns true. -/
theorem close_trade_succeeds_for_any_status_witness :
    (mPlanned.close_trade "p1" 130 true "d").1 = true :=
  ((close_trade_succeeds_for_any_status mPlanned "p1" 130 "d").2 tPlannedEx rfl).1

theorem execute_partial_sale_preserves_realized (m : TradeManager) (trade_id : String)
    (pct price : ℚ) (auto : Bool) (now : String) (t : Trade)
    (ht : m.get_trade trade_id = some t) (hr : realizedMatchesSales t) :
    ∃ t2, (execute_partial_sale m trade_id pct price auto now).2.get_trade trade_id
        = some t2 ∧ realizedMatchesSales t2 := by
  obtain ⟨t2, hget, hunits, hrl, hps, hcl, hstat⟩ :=
    execute_partial_sale_get m trade_id pct price auto now t ht
  refine ⟨t2, hget, ?_⟩
  unfold realizedMatchesSales at hr ⊢
  rw [hrl, hps, hr]
  simp

theorem applySales_preserves_realized (ops : List (ℚ × ℚ)) (m : TradeManager)
    (trade_id : String) (now : String) (t : Trade)
    (ht : m.get_trade trade_id = some t) (hr : realizedMatchesSales t) :
    ∃ t2, (applySales m trade_id ops now).get_trade trade_id = some t2 ∧
      realizedMatchesSales t2 := by
  induction ops generalizing m t with
  | nil => exact ⟨t, ht, hr⟩
  | cons op rest ih =>
    obtain ⟨t1, h1, hr1⟩ :=
      execute_partial_sale_preserves_realized m trade_id op.1 op.2 true now t ht hr
    exact ih _ _ h1 hr1

theorem units_remaining_100 (t : Trade) (price : ℚ) (now : String) :
    (calculate_partial_sale t 100 price now).units_remaining = 0 := by
  rw [units_remaining_eq, show ((100 : ℚ) / 100) = 1 by norm_num, mul_one,
    pytrunc_intCast, sub_self]

/-- C4 amended: after any sequence of partial sales, a final sale of 100% of
the then-remaining units drives the remaining units to exactly 0, upon which
the trade's status is Closed and its finalPnl equals the sum of the pnl
values of all its partial-sale records (no remaining-unit residual) —
provided the trade's realized P&L initially matches its recorded sales (true
of every freshly created trade).  A sequence whose percentages merely sum to
100% need not reach 0 units, because each sale is floor-rounded against the
then-current remaining units. -/
theorem full_exit_after_sales_closes_with_sale_sum (m : TradeManager) (trade_id : String)
    (ops : List (ℚ × ℚ)) (price : ℚ) (now : String) (t0 : Trade)
    (h0 : m.get_trade trade_id = some t0) (hr : realizedMatchesSales t0) :
    ∃ t2, (execute_partial_sale (applySales m trade_id ops now) trade_id 100 price
        true now).2.get_trade trade_id = some t2 ∧
      t2.units = 0 ∧ t2.status = .closed ∧
      t2.final_pnl = some ((t2.partial_sales.map PartialSaleRecord.pnl).sum) := by
  obtain ⟨t1, h1, hr1⟩ := applySales_preserves_realized ops m trade_id now t0 h0 hr
  obtain ⟨t2, hget, hunits, hrl, hps, hcl, hstat⟩ :=
    execute_partial_sale_get (applySales m trade_id ops now) trade_id 100 price true now t1 h1
  have hzero := units_remaining_100 t1 price now
  obtain ⟨hstatus, hfp⟩ := hcl hzero
  refine ⟨t2, hget, ?_, hstatus, ?_⟩
  · rw [hunits, hzero]
  · rw [hfp, hps]
    unfold realizedMatchesSales at hr1
    simp [hr1]

/-- C4 (counterexample): four successive 25% sales (percentages summing to
100%) of an open 10-unit position leave 4 remaining units with the trade
still Open — floor-rounding each slice against the then-remaining units
never reaches 0, contradicting the claimed conservation. -/
theorem four_quarter_sales_leave_residual :
    ((applySales mTen "q1" [(25, 125), (25, 125), (25, 125), (25, 125)] "d").get_trade
      "q1").map Trade.units = some 4 ∧
    ((applySales mTen "q1" [(25, 125), (25, 125), (25, 125), (25, 125)] "d").get_trade
      "q1").map Trade.status = some .open_ ∧
    (25 : ℚ) + 25 + 25 + 25 = 100 := by
  refine ⟨?_, ?_, by norm_num⟩ <;>
    norm_num [applySales, List.foldl_cons, List.foldl_nil, execute_partial_sale,
      calculate_partial_sale, TradeManager.update_trade, TradeManager.get_trade,
      applyUpdates, setKey, pytrunc, mTen, tTenEx, mkTradeEx, List.find?]

/-- C4 witness: the amended statement for a 25% sale followed by a 100% sale
of a 10-unit open trade. -/
theorem full_exit_after_sales_closes_witness :
    ∃ t2, (execute_partial_sale (applySales mTen "q1" [(25, 125)] "d") "q1" 100 130
        true "d").2.get_trade "q1" = some t2 ∧
      t2.units = 0 ∧ t2.status = .closed ∧
      t2.final_pnl = some ((t2.partial_sales.map PartialSaleRecord.pnl).sum) :=
  full_exit_after_sales_closes_with_sale_sum mTen "q1" [(25, 125)] 130 "d" tTenEx rfl
    (by simp [realizedMatchesSales, tTenEx, mkTradeEx])

/-- C8 (failing input): importing the backup document
`{"trades": {"t1": {}}}` hits `Trade(**{})`, which raises a TypeError that
the `except (json.JSONDecodeError, KeyError)` clause does not catch: the
operation raises instead of returning failure (the ledger is nevertheless
left unchanged, because the replacement dict is built before assignment).  Parse
failures and a missing top-level `trades` key do return failure cleanly. -/
theorem import_malformed_record_raises :
    (import_trades_from_json mShort
        (.ok (.obj [("trades", .obj [("t1", .obj [])])]))
      = (.raised (.typeError "Trade() missing required argument"), mShort)) ∧
    (import_trades_from_json mShort (.error ()) = (.ok false, mShort)) ∧
    (import_trades_from_json mShort (.ok (.obj [("exportDate", .str "x")]))
      = (.ok false, mShort)) := by
  exact ⟨rfl, rfl, rfl⟩
